import Mathlib

/-!
Shallow embedding of the genesis configuration-aggregation pipeline of this
repository (coordination store, layout descriptor, participant publication,
genesis aggregation, waypoint derivation, artifact writing), together with
the health-check polling primitive and the index arithmetic of the twin
validator test. The pipeline implementation itself is not among the given
source files (only its tests and callers are), so those parts are modelled
from the spec, as marked on each definition. The twin-validator index
arithmetic and the test-only seed derivation are embedded directly from
`testsuite/testcases/src/twin_validator_test.rs` and
`crates/aptos/src/genesis/tests.rs`.
-/

namespace Genesis

/-- Error taxonomy of the pipeline (spec §7). -/
inductive GError where
  | SchemaError
  | MissingRootKey
  | MissingParticipant (name : String)
  | DuplicateParticipant (name : String)
  | DuplicateAddress
  | InvalidArtifact
  | IoError
  | Timeout
  | AlreadyExists
  | NotFound
  deriving DecidableEq, Repr

/-- A field value of a structured key-value document (the shallow model of a
parsed YAML document as exchanged through the coordination store). -/
inductive Field where
  | fstr : String → Field
  | fnat : Nat → Field
  | fbool : Bool → Field
  | fopt : Option String → Field
  | flist : List String → Field
  deriving DecidableEq, Repr

/-- Contents of one file in the coordination store: a key-value document
(layout, participant identity), a sequence of records (balances, vesting),
or an opaque binary blob (framework bundle). -/
inductive FileData where
  | kvDoc : List (String × Field) → FileData
  | recSeq : List (List (String × Field)) → FileData
  | bin : List Nat → FileData
  deriving DecidableEq, Repr

/-- Modelled from the spec: the CoordinationStore (§4.1), an abstraction over
a versioned file tree; the store implementation is not among the given
source files. Observationally it is a map from relative paths to whole-file
contents; `write` is create-or-overwrite, `read` is first-match lookup. -/
def Store := List (String × FileData)

/-- Modelled from the spec: `read(path)` returns the file bytes or nothing
(`NotFound`) (§4.1). -/
def Store.read : Store → String → Option FileData
  | [], _ => none
  | (q, d) :: rest, p => if p = q then some d else Store.read rest p

/-- Modelled from the spec: `write(path, bytes)` creates or overwrites the
file at a relative path (§4.1). -/
def Store.write (s : Store) (p : String) (d : FileData) : Store :=
  (p, d) :: s

theorem Store.read_write (s : Store) (p q : String) (d : FileData) :
    Store.read (Store.write s p d) q = if q = p then some d else Store.read s q := rfl

theorem Store.read_write_ne (s : Store) (p q : String) (d : FileData) (h : q ≠ p) :
    Store.read (Store.write s p d) q = Store.read s q := by
  simp [Store.read_write, h]

/-- Host and port of a validator endpoint (spec §6, `host:port`). -/
structure HostAndPort where
  host : String
  port : Nat
  deriving DecidableEq, Repr

/-- Modelled from the spec: the LayoutDescriptor (§3), the network's
bootstrap manifest; its Rust definition (`aptos_genesis::config::Layout`) is
not among the given source files. -/
structure LayoutDescriptor where
  root_key : Option String
  chain_id : Nat
  participants : List String
  is_test : Bool
  balances_file_ref : Option String
  vesting_file_ref : Option String
  deriving DecidableEq, Repr

/-- Modelled from the spec: a ParticipantBundle (§3), one participant's
published identity and configuration. -/
structure ParticipantBundle where
  username : String
  owner_identity : String
  operator_identity : Option String
  voter_identity : Option String
  validator_host : HostAndPort
  stake_amount : Nat
  commission_percentage : Nat
  deriving DecidableEq, Repr

/-- Look a key up in a key-value document. -/
def getField : List (String × Field) → String → Except GError Field
  | [], _ => .error .SchemaError
  | (k, f) :: rest, key => if key = k then .ok f else getField rest key

def asStr : Field → Except GError String
  | .fstr v => .ok v
  | _ => .error .SchemaError

def asNat : Field → Except GError Nat
  | .fnat v => .ok v
  | _ => .error .SchemaError

def asBool : Field → Except GError Bool
  | .fbool v => .ok v
  | _ => .error .SchemaError

def asOptStr : Field → Except GError (Option String)
  | .fopt v => .ok v
  | _ => .error .SchemaError

def asStrList : Field → Except GError (List String)
  | .flist v => .ok v
  | _ => .error .SchemaError

/-- Modelled from the spec: serialization of a LayoutDescriptor to the
structured key-value layout file (§4.2, §6); the Rust serializer
(`serde_yaml::to_string` on `Layout`) is not among the given source files. -/
def serializeLayout (l : LayoutDescriptor) : List (String × Field) :=
  [("root_key", .fopt l.root_key),
   ("chain_id", .fnat l.chain_id),
   ("users", .flist l.participants),
   ("is_test", .fbool l.is_test),
   ("balances_file", .fopt l.balances_file_ref),
   ("vesting_file", .fopt l.vesting_file_ref)]

/-- Modelled from the spec: `load(bytes)` parses a layout document, failing
with `SchemaError` on malformed input (§4.2). -/
def loadLayout (doc : List (String × Field)) : Except GError LayoutDescriptor :=
  match getField doc "root_key" with
  | .error e => .error e
  | .ok f₁ =>
    match asOptStr f₁ with
    | .error e => .error e
    | .ok rk =>
      match getField doc "chain_id" with
      | .error e => .error e
      | .ok f₂ =>
        match asNat f₂ with
        | .error e => .error e
        | .ok cid =>
          match getField doc "users" with
          | .error e => .error e
          | .ok f₃ =>
            match asStrList f₃ with
            | .error e => .error e
            | .ok us =>
              match getField doc "is_test" with
              | .error e => .error e
              | .ok f₄ =>
                match asBool f₄ with
                | .error e => .error e
                | .ok tst =>
                  match getField doc "balances_file" with
                  | .error e => .error e
                  | .ok f₅ =>
                    match asOptStr f₅ with
                    | .error e => .error e
                    | .ok bref =>
                      match getField doc "vesting_file" with
                      | .error e => .error e
                      | .ok f₆ =>
                        match asOptStr f₆ with
                        | .error e => .error e
                        | .ok vref =>
                          .ok { root_key := rk, chain_id := cid,
                                participants := us, is_test := tst,
                                balances_file_ref := bref,
                                vesting_file_ref := vref }

/-- Modelled from the spec: serialization of a participant identity bundle
(§4.3, §6); the Rust serializer is not among the given source files. -/
def serializeBundle (b : ParticipantBundle) : List (String × Field) :=
  [("username", .fstr b.username),
   ("owner_identity", .fstr b.owner_identity),
   ("operator_identity", .fopt b.operator_identity),
   ("voter_identity", .fopt b.voter_identity),
   ("validator_host", .fstr b.validator_host.host),
   ("validator_port", .fnat b.validator_host.port),
   ("stake_amount", .fnat b.stake_amount),
   ("commission_percentage", .fnat b.commission_percentage)]

/-- Modelled from the spec: parse a participant identity document (§6),
failing with `SchemaError` on malformed input. -/
def parseBundle (doc : List (String × Field)) : Except GError ParticipantBundle :=
  match getField doc "username" with
  | .error e => .error e
  | .ok f₁ =>
    match asStr f₁ with
    | .error e => .error e
    | .ok un =>
      match getField doc "owner_identity" with
      | .error e => .error e
      | .ok f₂ =>
        match asStr f₂ with
        | .error e => .error e
        | .ok ow =>
          match getField doc "operator_identity" with
          | .error e => .error e
          | .ok f₃ =>
            match asOptStr f₃ with
            | .error e => .error e
            | .ok op =>
              match getField doc "voter_identity" with
              | .error e => .error e
              | .ok vo =>
                match asOptStr vo with
                | .error e => .error e
                | .ok vt =>
                  match getField doc "validator_host" with
                  | .error e => .error e
                  | .ok f₄ =>
                    match asStr f₄ with
                    | .error e => .error e
                    | .ok hs =>
                      match getField doc "validator_port" with
                      | .error e => .error e
                      | .ok f₅ =>
                        match asNat f₅ with
                        | .error e => .error e
                        | .ok pt =>
                          match getField doc "stake_amount" with
                          | .error e => .error e
                          | .ok f₆ =>
                            match asNat f₆ with
                            | .error e => .error e
                            | .ok st =>
                              match getField doc "commission_percentage" with
                              | .error e => .error e
                              | .ok f₇ =>
                                match asNat f₇ with
                                | .error e => .error e
                                | .ok cm =>
                                  .ok { username := un, owner_identity := ow,
                                        operator_identity := op,
                                        voter_identity := vt,
                                        validator_host := ⟨hs, pt⟩,
                                        stake_amount := st,
                                        commission_percentage := cm }

theorem parseBundle_serializeBundle (b : ParticipantBundle) :
    parseBundle (serializeBundle b) = .ok b := rfl

/-- Fixed relative path of the layout file inside the coordination store. -/
def layoutPath : String := "layout"

/-- Fixed well-known name of the framework bundle inside the store (spec §6). -/
def frameworkPath : String := "framework.mrb"

/-- Name-scoped path of one participant's published identity (spec §4.3). -/
def participantPath (name : String) : String :=
  "participants/" ++ name ++ "/identity"

/-- Modelled from the spec: `publish(store, name, bundle)` serializes the
bundle and writes it to `participants/<name>/identity` (§4.3). -/
def publish (s : Store) (name : String) (b : ParticipantBundle) : Store :=
  Store.write s (participantPath name) (.kvDoc (serializeBundle b))

/-- One account balance record (spec §3). -/
structure AccountBalanceEntry where
  address : Nat
  balance : Nat
  deriving DecidableEq, Repr

/-- The validated aggregate handed to the external ledger builder (spec §3):
layout, participant bundles sorted by name, balances, vesting records and
the framework bundle. -/
structure GenesisInputSet where
  layout : LayoutDescriptor
  bundles : List (String × ParticipantBundle)
  balances : List AccountBalanceEntry
  vesting : List (List (String × Field))
  framework : List Nat
  deriving DecidableEq, Repr

/-- First name that occurs again later in the list (case-sensitive). -/
def firstDup : List String → Option String
  | [] => none
  | n :: rest => if n ∈ rest then some n else firstDup rest

/-- Byte-wise lexicographic order on names, used to sort participant
bundles deterministically (spec §4.4 step 2: ordered-by-name mapping). -/
def leCodes : List Nat → List Nat → Bool
  | [], _ => true
  | _ :: _, [] => false
  | a :: as, b :: bs => if a < b then true else if b < a then false else leCodes as bs

def nameLe (a b : String) : Bool :=
  leCodes (a.toList.map Char.toNat) (b.toList.map Char.toNat)

def insertByName (p : String × ParticipantBundle) :
    List (String × ParticipantBundle) → List (String × ParticipantBundle)
  | [] => [p]
  | q :: rest => if nameLe p.1 q.1 then p :: q :: rest else q :: insertByName p rest

/-- Insertion sort by participant name (spec §4.4 step 2: sort by name
before use, independent of store enumeration order). -/
def sortBundles (xs : List (String × ParticipantBundle)) :
    List (String × ParticipantBundle) :=
  xs.foldr insertByName []

/-- Modelled from the spec: step 2 read phase of the aggregator (§4.4) —
for each listed name read `participants/<name>/identity`, failing with
`MissingParticipant(name)` on the first absent one. Returns the raw file
data together with the list of store paths read. -/
def readRawBundlesT (s : Store) : List String →
    Except GError (List (String × FileData)) × List String
  | [] => (.ok [], [])
  | n :: rest =>
    match Store.read s (participantPath n) with
    | none => (.error (.MissingParticipant n), [participantPath n])
    | some fd =>
      match readRawBundlesT s rest with
      | (.error e, log) => (.error e, participantPath n :: log)
      | (.ok others, log) => (.ok ((n, fd) :: others), participantPath n :: log)

/-- Parse phase of step 2: each raw identity file must be a key-value
document holding a well-formed bundle, else `SchemaError`. -/
def parseBundles : List (String × FileData) →
    Except GError (List (String × ParticipantBundle))
  | [] => .ok []
  | (n, .kvDoc doc) :: rest =>
    match parseBundle doc with
    | .error e => .error e
    | .ok b =>
      match parseBundles rest with
      | .error e => .error e
      | .ok bs => .ok ((n, b) :: bs)
  | (_, _) :: _ => .error .SchemaError

/-- Parse one balances record `{account_address, balance}` (spec §6). -/
def parseBalanceEntry (doc : List (String × Field)) :
    Except GError AccountBalanceEntry :=
  match getField doc "account_address" with
  | .error e => .error e
  | .ok f₁ =>
    match asNat f₁ with
    | .error e => .error e
    | .ok ad =>
      match getField doc "balance" with
      | .error e => .error e
      | .ok f₂ =>
        match asNat f₂ with
        | .error e => .error e
        | .ok bl => .ok { address := ad, balance := bl }

def parseBalanceEntries : List (List (String × Field)) →
    Except GError (List AccountBalanceEntry)
  | [] => .ok []
  | doc :: rest =>
    match parseBalanceEntry doc with
    | .error e => .error e
    | .ok a =>
      match parseBalanceEntries rest with
      | .error e => .error e
      | .ok as => .ok (a :: as)

/-- First address occurring twice in the balances sequence. -/
def firstDupAddr : List AccountBalanceEntry → Option Nat
  | [] => none
  | a :: rest =>
    if rest.any (fun b => b.address = a.address) then some a.address
    else firstDupAddr rest

/-- Modelled from the spec: step 3 of the aggregator (§4.4) — if a balances
file reference is set, read and parse it, failing with `SchemaError` on
malformed entries and `DuplicateAddress` on a repeated address. Also
returns the paths read. -/
def readBalancesT (s : Store) : Option String →
    Except GError (List AccountBalanceEntry) × List String
  | none => (.ok [], [])
  | some ref =>
    match Store.read s ref with
    | none => (.error .NotFound, [ref])
    | some (.recSeq rows) =>
      match parseBalanceEntries rows with
      | .error e => (.error e, [ref])
      | .ok entries =>
        match firstDupAddr entries with
        | some _ => (.error .DuplicateAddress, [ref])
        | none => (.ok entries, [ref])
    | some _ => (.error .SchemaError, [ref])

/-- Modelled from the spec: step 4 of the aggregator (§4.4) — if a vesting
file reference is set, read and parse it; an empty collection is valid. -/
def readVestingT (s : Store) : Option String →
    Except GError (List (List (String × Field))) × List String
  | none => (.ok [], [])
  | some ref =>
    match Store.read s ref with
    | none => (.error .NotFound, [ref])
    | some (.recSeq rows) => (.ok rows, [ref])
    | some _ => (.error .SchemaError, [ref])

/-- Modelled from the spec: step 5 — obtain the framework bundle, pinned
under its fixed well-known name in the store (§4.4, §6). -/
def readFrameworkT (s : Store) : Except GError (List Nat) × List String :=
  match Store.read s frameworkPath with
  | none => (.error .NotFound, [frameworkPath])
  | some (.bin bytes) => (.ok bytes, [frameworkPath])
  | some _ => (.error .SchemaError, [frameworkPath])

/-- Modelled from the spec: the GenesisAggregator, steps 1–6 of §4.4,
instrumented with the list of store paths it reads (in order). Step 1
loads the layout; duplicate participant names are rejected before any use
of the list (§4.2), in particular before any participant read; then the
root key gate, the per-participant reads (sorted by name before use), the
optional balances and vesting files, and the framework bundle. -/
def aggregateT (s : Store) : Except GError GenesisInputSet × List String :=
  match Store.read s layoutPath with
  | none => (.error .NotFound, [layoutPath])
  | some (.kvDoc doc) =>
    (match loadLayout doc with
     | .error e => (.error e, [layoutPath])
     | .ok layout =>
       match firstDup layout.participants with
       | some n => (.error (.DuplicateParticipant n), [layoutPath])
       | none =>
         match layout.root_key with
         | none => (.error .MissingRootKey, [layoutPath])
         | some _ =>
           match readRawBundlesT s layout.participants with
           | (.error e, log₁) => (.error e, layoutPath :: log₁)
           | (.ok raw, log₁) =>
             match parseBundles raw with
             | .error e => (.error e, layoutPath :: log₁)
             | .ok bundles =>
               match readBalancesT s layout.balances_file_ref with
               | (.error e, log₂) => (.error e, layoutPath :: (log₁ ++ log₂))
               | (.ok balances, log₂) =>
                 match readVestingT s layout.vesting_file_ref with
                 | (.error e, log₃) =>
                   (.error e, layoutPath :: (log₁ ++ log₂ ++ log₃))
                 | (.ok vesting, log₃) =>
                   match readFrameworkT s with
                   | (.error e, log₄) =>
                     (.error e, layoutPath :: (log₁ ++ log₂ ++ log₃ ++ log₄))
                   | (.ok fw, log₄) =>
                     (.ok { layout := layout,
                            bundles := sortBundles bundles,
                            balances := balances,
                            vesting := vesting,
                            framework := fw },
                      layoutPath :: (log₁ ++ log₂ ++ log₃ ++ log₄)))
  | some _ => (.error .SchemaError, [layoutPath])

/-- The aggregation result proper (spec §4.4 steps 1–6). -/
def aggregate (s : Store) : Except GError GenesisInputSet :=
  (aggregateT s).1

/-- Token-stream encoding of a string: length then character codes. -/
def encStr (s : String) : List Nat :=
  s.length :: s.toList.map Char.toNat

def encOptStr : Option String → List Nat
  | none => [0]
  | some v => 1 :: encStr v

def encField : Field → List Nat
  | .fstr v => 0 :: encStr v
  | .fnat v => [1, v]
  | .fbool v => [2, if v then 1 else 0]
  | .fopt v => 3 :: encOptStr v
  | .flist v => 4 :: v.length :: (v.map encStr).flatten

def encDoc (doc : List (String × Field)) : List Nat :=
  doc.length :: (doc.map (fun kv => encStr kv.1 ++ encField kv.2)).flatten

def encBundle (b : ParticipantBundle) : List Nat :=
  encStr b.username ++ encStr b.owner_identity ++
  encOptStr b.operator_identity ++ encOptStr b.voter_identity ++
  encStr b.validator_host.host ++ [b.validator_host.port] ++
  [b.stake_amount, b.commission_percentage]

def encLayout (l : LayoutDescriptor) : List Nat :=
  encOptStr l.root_key ++ [l.chain_id] ++
  l.participants.length :: (l.participants.map encStr).flatten ++
  [if l.is_test then 1 else 0] ++
  encOptStr l.balances_file_ref ++ encOptStr l.vesting_file_ref

/-- Modelled from the spec: the byte serialization of a `GenesisInputSet`
(§8, determinism property compares serializations byte for byte). -/
def serializeGIS (g : GenesisInputSet) : List Nat :=
  encLayout g.layout ++
  g.bundles.length :: (g.bundles.map (fun nb => encStr nb.1 ++ encBundle nb.2)).flatten ++
  g.balances.length :: (g.balances.map (fun a => [a.address, a.balance])).flatten ++
  g.vesting.length :: (g.vesting.map encDoc).flatten ++
  g.framework.length :: g.framework

/-- Modelled from the spec: the external LedgerGenesisBuilder (§4.4 step 7)
as a deterministic black-box function from the validated input set to the
binary genesis artifact; its implementation is outside this component. -/
def buildGenesis (g : GenesisInputSet) : Except GError (List Nat) :=
  .ok (7 :: serializeGIS g)

/-- A checkpoint value: version number plus state digest (spec §3). -/
structure Waypoint where
  version : Nat
  digest : Nat
  deriving DecidableEq, Repr

/-- Modelled from the spec: the WaypointDeriver (§4.5) — a pure function of
the artifact, version 0 for genesis, failing with `InvalidArtifact` on an
empty artifact. -/
def deriveWaypoint (artifact : List Nat) : Except GError Waypoint :=
  if artifact = [] then .error .InvalidArtifact
  else .ok { version := 0,
             digest := artifact.foldl (fun h b => (h * 31 + b) % 1000000007) 5381 }

/-- Decimal digits of a number as character codes. -/
def natText (n : Nat) : List Nat :=
  (Nat.toDigits 10 n).map Char.toNat

/-- Textual representation of a waypoint: `version:digest` (spec §6). -/
def waypointText (w : Waypoint) : List Nat :=
  natText w.version ++ [58] ++ natText w.digest

/-- Modelled from the spec: the full pipeline — aggregation (§4.4), the
external builder, waypoint derivation (§4.5) and the ArtifactWriter (§4.6),
which persists `genesis.blob` and `waypoint.txt` into the caller-specified
output directory, modelled as the returned list of written files. A failed
run writes no output files (§7). -/
def runPipeline (s : Store) : Except GError Unit × List (String × List Nat) :=
  match aggregate s with
  | .error e => (.error e, [])
  | .ok gis =>
    match buildGenesis gis with
    | .error e => (.error e, [])
    | .ok blob =>
      match deriveWaypoint blob with
      | .error e => (.error e, [])
      | .ok wp => (.ok (), [("genesis.blob", blob), ("waypoint.txt", waypointText wp)])

/-- Layout of end-to-end scenario A (spec §8; mirrors `create_layout_file`
in `crates/aptos/src/genesis/tests.rs`: participants `user-0`, `user-1`,
test chain, root key set). -/
def scenarioLayout : LayoutDescriptor :=
  { root_key := some "ed25519-root-public-key",
    chain_id := 4,
    participants := ["user-0", "user-1"],
    is_test := true,
    balances_file_ref := some "balances.yaml",
    vesting_file_ref := some "employee_vesting_accounts.yaml" }

/-- Participant bundle of scenario A (mirrors `set_validator_config` in
`crates/aptos/src/genesis/tests.rs`: host `localhost:6180`, stake
`100_000_000_000_000`, commission `0`). -/
def scenarioBundle (name : String) (ownerKey : String) : ParticipantBundle :=
  { username := name,
    owner_identity := ownerKey,
    operator_identity := none,
    voter_identity := none,
    validator_host := { host := "localhost", port := 6180 },
    stake_amount := 100000000000000,
    commission_percentage := 0 }

/-- Balances file of scenario A: `0x123 → 1`, `0x234 → 2` (mirrors
`create_account_balances_file` in `crates/aptos/src/genesis/tests.rs`). -/
def scenarioBalances : FileData :=
  .recSeq [[("account_address", .fnat 0x123), ("balance", .fnat 1)],
           [("account_address", .fnat 0x234), ("balance", .fnat 2)]]

/-- The coordination store of end-to-end scenario A, fully populated:
layout, both participant bundles, balances, empty vesting file, and a
pinned non-empty framework bundle. -/
def scenarioStore : Store :=
  Store.write
    (Store.write
      (Store.write
        (publish
          (publish
            (Store.write [] layoutPath (.kvDoc (serializeLayout scenarioLayout)))
            "user-0" (scenarioBundle "user-0" "pk0"))
          "user-1" (scenarioBundle "user-1" "pk1"))
        "balances.yaml" scenarioBalances)
      "employee_vesting_accounts.yaml" (.recSeq []))
    frameworkPath (.bin [1, 2, 3])

/-- The scenario-B layout: like scenario A but listing a third participant
`user-2` (spec §8, scenario B). -/
def scenarioLayoutB : LayoutDescriptor :=
  { scenarioLayout with participants := ["user-0", "user-1", "user-2"] }

/-- Scenario B store: same as A except the layout lists a third participant
`user-2` for which no bundle was published (spec §8, scenario B). -/
def scenarioStoreB : Store :=
  Store.write scenarioStore layoutPath (.kvDoc (serializeLayout scenarioLayoutB))

/-- A layout whose participants list repeats `user-0` (duplicate-detection
scenario, spec §8). -/
def dupLayout : LayoutDescriptor :=
  { scenarioLayout with participants := ["user-0", "user-0"] }

/-- The scenario-A store with its layout replaced by the duplicated one. -/
def dupStore : Store :=
  Store.write scenarioStore layoutPath (.kvDoc (serializeLayout dupLayout))

/-- Aggregation-time read of a list of participants: the read phase of
step 2 followed by the parse phase (spec §4.4). -/
def readBundles (s : Store) (names : List String) :
    Except GError (List (String × ParticipantBundle)) :=
  match (readRawBundlesT s names).1 with
  | .error e => .error e
  | .ok raw => parseBundles raw

/-- Two enumerations of the same snapshot, listed in opposite orders. -/
def snapshotOrderA : Store := [("a.yaml", .bin [1]), ("b.yaml", .bin [2])]

def snapshotOrderB : Store := [("b.yaml", .bin [2]), ("a.yaml", .bin [1])]

end Genesis

namespace TwinValidator

/-- Number of twin validators, embedded from
`twin_validator_test.rs` line 34: `let twin_count = 2;`. -/
def twin_count : Nat := 2

/-- The twin index expression `i + validator_count - twin_count` of
`twin_validator_test.rs` line 38, with Rust `usize` semantics: left to
right, `(i + validator_count) - twin_count`, underflow (`none`) when the
subtraction would go below zero. -/
def twinIndex (validator_count i : Nat) : Option Nat :=
  if i + validator_count < twin_count then none
  else some (i + validator_count - twin_count)

/-- The deadline passed to `wait_until_healthy` in
`twin_validator_test.rs` line 75: `Instant::now() + Duration::from_secs(300)`. -/
def twinWaitSecs : Nat := 300

/-- Modelled from the spec: the bounded health-check polling primitive
(§5) — `wait_until_healthy` itself is not among the given source files,
only its caller in `twin_validator_test.rs`. Polls the health predicate at
discrete instants, advancing by at least one unit per poll, and fails with
`Timeout` once the deadline has elapsed; the fuel argument bounds the
number of polls so the wait can never block indefinitely. -/
def pollFuel (healthy : Nat → Bool) (interval deadline : Nat) :
    Nat → Nat → Except Genesis.GError Nat
  | 0, _ => .error .Timeout
  | fuel + 1, now =>
    if deadline < now then .error .Timeout
    else if healthy now then .ok now
    else pollFuel healthy interval deadline fuel (now + max 1 interval)

/-- Modelled from the spec: `wait until healthy or fail after the deadline`
(§5), entered at instant `now` with the given deadline. -/
def waitUntilHealthy (healthy : Nat → Bool) (interval now deadline : Nat) :
    Except Genesis.GError Nat :=
  pollFuel healthy interval deadline (deadline + 1 - now) now

/-- The wait on a restarted twin in `TwinValidatorTest::run`: deadline 300
seconds after the instant the wait starts (`twin_validator_test.rs` line 75). -/
def twinWait (healthy : Nat → Bool) (interval now : Nat) :
    Except Genesis.GError Nat :=
  waitUntilHealthy healthy interval now (now + twinWaitSecs)

end TwinValidator

namespace GenesisTests

/-- `u8::saturating_add` on byte values, embedded from the use
`num_users.saturating_add(1)` in `create_users`
(`crates/aptos/src/genesis/tests.rs` line 98). -/
def saturating_add_u8 (a b : Nat) : Nat := min (a + b) 255

/-- The single byte filling the 32-byte root-key RNG seed in `create_users`
(`crates/aptos/src/genesis/tests.rs` line 98: `[num_users.saturating_add(1); 32]`). -/
def rootSeedByte (num_users : Nat) : Nat := saturating_add_u8 num_users 1

/-- The root RNG seed `[num_users.saturating_add(1); 32]` of `create_users`. -/
def rootSeed (num_users : Nat) : List Nat :=
  List.replicate 32 (rootSeedByte num_users)

/-- The per-user RNG seed `[index; 32]` of `generate_keys`
(`crates/aptos/src/genesis/tests.rs` line 200: `RngArgs::from_seed([index; 32])`). -/
def userSeed (index : Nat) : List Nat := List.replicate 32 index

end GenesisTests

namespace KeyGen

/-- State of the key-material provider: seeded deterministic mode (seed
plus a counter of keys already produced) or secure-randomness mode (count
of entropy words consumed). -/
inductive St where
  | seeded (seed : List Nat) (ctr : Nat)
  | random (consumed : Nat)
  deriving DecidableEq, Repr

/-- Modelled from the spec: the KeyMaterialProvider initialized
deterministically from a seed (§2 item 1; `KeyGen::from_seed` used by the
tests is not among the given source files). -/
def from_seed (seed : List Nat) : St := .seeded seed 0

/-- Modelled from the spec: deterministic key derivation from seed material
and a counter — a pure mixing function standing for the seeded PRF. -/
def prf (seed : List Nat) (ctr : Nat) : List Nat :=
  seed.map (fun b => (b * 131 + ctr * 31 + 17) % 256)

/-- A key pair: private key bytes and the derived public key bytes. -/
structure KeyPair where
  privBytes : List Nat
  pubBytes : List Nat
  deriving DecidableEq, Repr

/-- Modelled from the spec: derive the public key from a private key — an
opaque deterministic operation (§1: crypto consumed as opaque operations). -/
def pubOf (priv : List Nat) : List Nat :=
  priv.map (fun b => (b * 7 + 3) % 256)

/-- Modelled from the spec: generate one key pair (§2 item 1). In seeded
mode the entropy stream is ignored and the key is a pure function of the
seed and counter; in randomness mode the key comes from the entropy
stream. -/
def generate (st : St) (entropy : Nat → List Nat) : KeyPair × St :=
  match st with
  | .seeded seed ctr =>
    ({ privBytes := prf seed ctr, pubBytes := pubOf (prf seed ctr) },
     .seeded seed (ctr + 1))
  | .random k =>
    ({ privBytes := entropy k, pubBytes := pubOf (entropy k) }, .random (k + 1))

/-- Generate `n` key pairs in sequence from a provider state. -/
def generateN (st : St) (entropy : Nat → List Nat) : Nat → List KeyPair
  | 0 => []
  | n + 1 =>
    match generate st entropy with
    | (kp, st₂) => kp :: generateN st₂ entropy n

end KeyGen

namespace Genesis

/- ------------------------------------------------------------------ -/
/- Helper lemmas -/
/- ------------------------------------------------------------------ -/

theorem participantPath_injective (a b : String) (h : participantPath a = participantPath b) :
    a = b := by
  unfold participantPath at h
  have hd := congrArg String.data h
  simp only [String.data_append, List.append_assoc] at hd
  have h₁ := List.append_cancel_left hd
  have h₂ := List.append_cancel_right h₁
  exact String.ext h₂

theorem participantPath_length (n : String) :
    (participantPath n).length = 22 + n.length := by
  rw [participantPath, String.length_append, String.length_append]
  have e₁ : ("participants/" : String).length = 13 := rfl
  have e₂ : ("/identity" : String).length = 9 := rfl
  rw [e₁, e₂]
  omega

theorem participantPath_ne_layoutPath (n : String) : participantPath n ≠ layoutPath := by
  intro h
  have hl := congrArg String.length h
  rw [participantPath_length] at hl
  have e : (layoutPath : String).length = 6 := rfl
  rw [e] at hl
  omega

theorem participantPath_ne_frameworkPath (n : String) : participantPath n ≠ frameworkPath := by
  intro h
  have hl := congrArg String.length h
  rw [participantPath_length] at hl
  have e : (frameworkPath : String).length = 13 := rfl
  rw [e] at hl
  omega

theorem readRawBundlesT_congr (s₁ s₂ : Store)
    (h : ∀ p, Store.read s₁ p = Store.read s₂ p) :
    ∀ names, readRawBundlesT s₁ names = readRawBundlesT s₂ names
  | [] => rfl
  | n :: rest => by
    unfold readRawBundlesT
    rw [h (participantPath n), readRawBundlesT_congr s₁ s₂ h rest]

theorem readBalancesT_congr (s₁ s₂ : Store)
    (h : ∀ p, Store.read s₁ p = Store.read s₂ p) :
    ∀ oref, readBalancesT s₁ oref = readBalancesT s₂ oref
  | none => rfl
  | some ref => by simp only [readBalancesT]; rw [h ref]

theorem readVestingT_congr (s₁ s₂ : Store)
    (h : ∀ p, Store.read s₁ p = Store.read s₂ p) :
    ∀ oref, readVestingT s₁ oref = readVestingT s₂ oref
  | none => rfl
  | some ref => by simp only [readVestingT]; rw [h ref]

theorem readFrameworkT_congr (s₁ s₂ : Store)
    (h : ∀ p, Store.read s₁ p = Store.read s₂ p) :
    readFrameworkT s₁ = readFrameworkT s₂ := by
  unfold readFrameworkT; rw [h frameworkPath]

theorem aggregateT_congr (s₁ s₂ : Store)
    (h : ∀ p, Store.read s₁ p = Store.read s₂ p) :
    aggregateT s₁ = aggregateT s₂ := by
  unfold aggregateT
  simp only [h layoutPath, readRawBundlesT_congr s₁ s₂ h, readBalancesT_congr s₁ s₂ h,
             readVestingT_congr s₁ s₂ h, readFrameworkT_congr s₁ s₂ h]

/-- If some listed name has no published bundle, the read phase fails with
`MissingParticipant` for one of the absent listed names. -/
theorem readRawBundlesT_missing (s : Store) :
    ∀ names, (∃ n ∈ names, Store.read s (participantPath n) = none) →
      ∃ m ∈ names, (readRawBundlesT s names).1 = .error (.MissingParticipant m) ∧
        Store.read s (participantPath m) = none
  | [], h => absurd h (by simp)
  | n :: rest, h => by
    cases hn : Store.read s (participantPath n) with
    | none =>
      exact ⟨n, by simp, by unfold readRawBundlesT; rw [hn], hn⟩
    | some fd =>
      have hrest : ∃ m ∈ rest, Store.read s (participantPath m) = none := by
        rcases h with ⟨m, hm, hnone⟩
        rcases List.mem_cons.mp hm with rfl | hmr
        · exact absurd hnone (by rw [hn]; simp)
        · exact ⟨m, hmr, hnone⟩
      rcases readRawBundlesT_missing s rest hrest with ⟨m, hmr, herr, hnone⟩
      refine ⟨m, by simp [hmr], ?_, hnone⟩
      unfold readRawBundlesT
      rw [hn]
      rcases hRB : readRawBundlesT s rest with ⟨res, log⟩
      rw [hRB] at herr
      simp only at herr
      rw [herr]

/-- A failed aggregation writes no output files. -/
theorem runPipeline_error_no_files (s : Store) (e : GError)
    (h : aggregate s = .error e) : (runPipeline s).2 = [] := by
  unfold runPipeline
  rw [h]

theorem firstDup_eq_none_of_nodup : ∀ l : List String, l.Nodup → firstDup l = none
  | [], _ => rfl
  | n :: rest, h => by
    rcases List.nodup_cons.mp h with ⟨hn, hrest⟩
    unfold firstDup
    rw [if_neg hn]
    exact firstDup_eq_none_of_nodup rest hrest

theorem firstDup_count : ∀ (l : List String) (n : String),
    firstDup l = some n → 1 < l.count n
  | [], n, h => by simp [firstDup] at h
  | m :: rest, n, h => by
    unfold firstDup at h
    by_cases hm : m ∈ rest
    · rw [if_pos hm] at h
      rcases Option.some.injEq .. ▸ h with rfl
      have h₁ : 1 ≤ rest.count m := List.count_pos_iff.mpr hm
      have h₂ : (m :: rest).count m = rest.count m + 1 := List.count_cons_self m rest
      omega
    · rw [if_neg hm] at h
      have := firstDup_count rest n h
      have h₂ : rest.count n ≤ (m :: rest).count n := List.count_le_count_cons n m rest
      omega

theorem nodup_of_firstDup_eq_none : ∀ l : List String, firstDup l = none → l.Nodup
  | [], _ => List.nodup_nil
  | m :: rest, h => by
    unfold firstDup at h
    by_cases hm : m ∈ rest
    · rw [if_pos hm] at h; cases h
    · rw [if_neg hm] at h
      exact List.nodup_cons.mpr ⟨hm, nodup_of_firstDup_eq_none rest h⟩

/-- If the participants list has a duplicate, `firstDup` reports one. -/
theorem firstDup_of_not_nodup (l : List String) (h : ¬ l.Nodup) :
    ∃ n, firstDup l = some n := by
  cases hf : firstDup l with
  | some n => exact ⟨n, rfl⟩
  | none => exact absurd (nodup_of_firstDup_eq_none l hf) h

/-- In seeded mode the generated key sequence is independent of the entropy
stream, whatever the counter state. -/
theorem generateN_seeded_entropy_free (seed : List Nat) (e₁ e₂ : Nat → List Nat) :
    ∀ (n ctr : Nat),
      KeyGen.generateN (.seeded seed ctr) e₁ n = KeyGen.generateN (.seeded seed ctr) e₂ n
  | 0, _ => rfl
  | n + 1, ctr => by
    simp [KeyGen.generateN, KeyGen.generate,
          generateN_seeded_entropy_free seed e₁ e₂ n (ctr + 1)]

/- ------------------------------------------------------------------ -/
/- Claim theorems -/
/- ------------------------------------------------------------------ -/

/-- C1: for a fixed coordination-store snapshot (two stores indistinguishable
through `read`, in particular differing only in listing order) and a fixed
framework bundle, two independent runs of the aggregation algorithm
(steps 1–6) produce byte-identical `GenesisInputSet` serializations. -/
theorem c1_aggregation_deterministic (s₁ s₂ : Store)
    (h : ∀ p, Store.read s₁ p = Store.read s₂ p) :
    Except.map serializeGIS (aggregate s₁) = Except.map serializeGIS (aggregate s₂) := by
  unfold aggregate
  rw [aggregateT_congr s₁ s₂ h]

theorem c1_witness :
    Except.map serializeGIS (aggregate snapshotOrderA) =
      Except.map serializeGIS (aggregate snapshotOrderB) := by
  apply c1_aggregation_deterministic
  intro p
  by_cases h₁ : p = "a.yaml" <;> by_cases h₂ : p = "b.yaml" <;>
    simp_all [snapshotOrderA, snapshotOrderB, Store.read]

/-- C5: deserializing the serialization of any `LayoutDescriptor` yields an
equal descriptor: `load(serialize(descriptor)) = descriptor`. -/
theorem c5_layout_roundtrip (l : LayoutDescriptor) :
    loadLayout (serializeLayout l) = .ok l := rfl

/-- C3: running the full pipeline on the scenario-A coordination store
(participants `user-0` and `user-1` published with host `localhost:6180`,
stake `100000000000000`, commission `0`; balances `0x123 → 1`,
`0x234 → 2`; empty vesting file; framework bundle present) succeeds and
writes a non-empty `genesis.blob` and a non-empty `waypoint.txt` to the
output directory. -/
theorem c3_scenario_a_end_to_end :
    (runPipeline scenarioStore).1 = .ok () ∧
    ((runPipeline scenarioStore).2.lookup "genesis.blob").getD [] ≠ [] ∧
    ((runPipeline scenarioStore).2.lookup "waypoint.txt").getD [] ≠ [] :=
  ⟨rfl, by decide, by decide⟩

/-- C6: publication is last-write-wins — publishing two bundles with
different `stake_amount` under the same name in sequence makes exactly the
second bundle the one read at aggregation time, never a merge, and the
republication overwrites instead of failing. -/
theorem c6_publish_last_write_wins (s : Store) (n : String)
    (b₁ b₂ : ParticipantBundle) (_h : b₁.stake_amount ≠ b₂.stake_amount) :
    readBundles (publish (publish s n b₁) n b₂) [n] = .ok [(n, b₂)] := by
  simp [readBundles, readRawBundlesT, publish, Store.read_write, parseBundles,
        parseBundle_serializeBundle]

theorem c6_witness :
    readBundles
      (publish (publish ([] : Store) "user-0" (scenarioBundle "user-0" "pk0"))
        "user-0" { scenarioBundle "user-0" "pk0" with stake_amount := 5 })
      ["user-0"] =
      .ok [("user-0", { scenarioBundle "user-0" "pk0" with stake_amount := 5 })] :=
  c6_publish_last_write_wins ([] : Store) "user-0" (scenarioBundle "user-0" "pk0")
    { scenarioBundle "user-0" "pk0" with stake_amount := 5 } (by decide)

end Genesis

/-- C7: key generation from a seed is deterministic — two runs of the
key-material provider initialized from the same 32-byte seed produce
identical key-pair sequences, whatever entropy streams the environment
offers each run. -/
theorem c7_keygen_deterministic_from_seed (seed : List Nat)
    (e₁ e₂ : Nat → List Nat) (n : Nat) :
    KeyGen.generateN (KeyGen.from_seed seed) e₁ n =
      KeyGen.generateN (KeyGen.from_seed seed) e₂ n :=
  Genesis.generateN_seeded_entropy_free seed e₁ e₂ n 0

/-- C9: the twin-validator index arithmetic — with at least 2 validators,
the accesses `all_validators_ids[i]` and
`all_validators_ids[i + validator_count - twin_count]` for `i < 2` are in
bounds; with fewer than 2 validators the twin-index computation underflows. -/
theorem c9_twin_indices (n : Nat) :
    (2 ≤ n → ∀ i, i < TwinValidator.twin_count →
      i < n ∧ ∃ j, TwinValidator.twinIndex n i = some j ∧ j < n) ∧
    (n < 2 → TwinValidator.twinIndex n 0 = none) := by
  constructor
  · intro hn i hi
    rw [TwinValidator.twin_count] at hi
    have hcond : ¬ (i + n < TwinValidator.twin_count) := by
      rw [TwinValidator.twin_count]; omega
    refine ⟨by omega, i + n - TwinValidator.twin_count, ?_, ?_⟩
    · rw [TwinValidator.twinIndex, if_neg hcond]
    · rw [TwinValidator.twin_count]; omega
  · intro hn
    rw [TwinValidator.twinIndex, if_pos (by rw [TwinValidator.twin_count]; omega)]

theorem c9_witness :
    (0 < 3 ∧ ∃ j, TwinValidator.twinIndex 3 0 = some j ∧ j < 3) ∧
    TwinValidator.twinIndex 1 0 = none :=
  ⟨(c9_twin_indices 3).1 (by decide) 0 (by decide), (c9_twin_indices 1).2 (by decide)⟩

/-- C10: in `create_users`, the root RNG seed byte
`num_users.saturating_add(1)` differs from every per-user seed byte
`index < num_users` for every `num_users ≤ 255` (including the saturating
case 255), so the root key seed never coincides with a user key seed. -/
theorem c10_root_seed_distinct (num_users i : Nat)
    (hn : num_users ≤ 255) (hi : i < num_users) :
    GenesisTests.rootSeedByte num_users ≠ i ∧
      GenesisTests.rootSeed num_users ≠ GenesisTests.userSeed i := by
  have h₁ : GenesisTests.rootSeedByte num_users ≠ i := by
    rw [GenesisTests.rootSeedByte, GenesisTests.saturating_add_u8]
    omega
  refine ⟨h₁, fun he => h₁ ?_⟩
  have hh := congrArg (fun l => l[0]?) he
  simpa [GenesisTests.rootSeed, GenesisTests.userSeed, List.getElem?_replicate] using hh

theorem c10_witness :
    GenesisTests.rootSeedByte 255 ≠ 254 ∧
      GenesisTests.rootSeed 255 ≠ GenesisTests.userSeed 254 :=
  c10_root_seed_distinct 255 254 (by decide) (by decide)

/-- Every polling run either observes a healthy instant no later than the
deadline and succeeds, or fails with `Timeout`; it can never do anything
else (in particular it cannot block, the fuel bounds the number of polls). -/
theorem pollFuel_dichotomy (healthy : Nat → Bool) (interval deadline : Nat) :
    ∀ (fuel now : Nat),
      (∃ t, TwinValidator.pollFuel healthy interval deadline fuel now = .ok t ∧
        healthy t = true ∧ now ≤ t ∧ t ≤ deadline) ∨
      TwinValidator.pollFuel healthy interval deadline fuel now =
        .error Genesis.GError.Timeout
  | 0, now => Or.inr rfl
  | fuel + 1, now => by
    rw [TwinValidator.pollFuel]
    by_cases hd : deadline < now
    · rw [if_pos hd]; exact Or.inr rfl
    · rw [if_neg hd]
      by_cases hh : healthy now
      · rw [if_pos hh]
        exact Or.inl ⟨now, rfl, hh, Nat.le_refl now, Nat.le_of_not_lt hd⟩
      · rw [if_neg hh]
        rcases pollFuel_dichotomy healthy interval deadline fuel (now + max 1 interval) with
          ⟨t, hok, ht, hle, hde⟩ | herr
        · exact Or.inl ⟨t, hok, ht, by omega, hde⟩
        · exact Or.inr herr

/-- C8: the health-check polling primitive never blocks indefinitely — for
every deadline it either observes a healthy node by the deadline and
succeeds, or fails with `Timeout`; and the wait on each restarted twin in
`TwinValidatorTest` is the bounded wait with a 300-second deadline. -/
theorem c8_bounded_health_wait (healthy : Nat → Bool) (interval now deadline : Nat) :
    ((∃ t, TwinValidator.waitUntilHealthy healthy interval now deadline = .ok t ∧
        healthy t = true ∧ now ≤ t ∧ t ≤ deadline) ∨
      TwinValidator.waitUntilHealthy healthy interval now deadline =
        .error Genesis.GError.Timeout) ∧
    TwinValidator.twinWait healthy interval now =
      TwinValidator.waitUntilHealthy healthy interval now (now + 300) :=
  ⟨pollFuel_dichotomy healthy interval deadline (deadline + 1 - now) now, rfl⟩

namespace Genesis

/-- C4: a layout whose participants list contains two identical names makes
the aggregation fail with `DuplicateParticipant` for a name that occurs
more than once, and the only store read performed up to that failure is
the layout file itself — no participant-bundle read happens. -/
theorem c4_duplicate_before_participant_reads (s : Store)
    (doc : List (String × Field)) (layout : LayoutDescriptor)
    (hread : Store.read s layoutPath = some (.kvDoc doc))
    (hload : loadLayout doc = .ok layout)
    (hdup : ¬ layout.participants.Nodup) :
    ∃ n, aggregateT s = (.error (.DuplicateParticipant n), [layoutPath]) ∧
      1 < layout.participants.count n := by
  rcases firstDup_of_not_nodup layout.participants hdup with ⟨n, hf⟩
  refine ⟨n, ?_, firstDup_count layout.participants n hf⟩
  rw [aggregateT, hread]
  simp only [hload, hf]

theorem c4_witness :
    ∃ n, aggregateT dupStore = (.error (.DuplicateParticipant n), [layoutPath]) ∧
      1 < dupLayout.participants.count n :=
  c4_duplicate_before_participant_reads dupStore (serializeLayout dupLayout) dupLayout
    rfl rfl (by decide)

/-- Writing at a path that is no listed participant's identity path leaves
the participant read phase unchanged. -/
theorem readRawBundlesT_write_ne (s : Store) (p : String) (d : FileData) :
    ∀ names, (∀ n ∈ names, participantPath n ≠ p) →
      readRawBundlesT (Store.write s p d) names = readRawBundlesT s names
  | [], _ => rfl
  | n :: rest, h => by
    unfold readRawBundlesT
    rw [Store.read_write_ne s p (participantPath n) d (h n (by simp)),
        readRawBundlesT_write_ne s p d rest (fun m hm => h m (by simp [hm]))]

theorem readBalancesT_write_ne (s : Store) (p : String) (d : FileData) :
    ∀ oref, oref ≠ some p →
      readBalancesT (Store.write s p d) oref = readBalancesT s oref
  | none, _ => rfl
  | some r, h => by
    simp only [readBalancesT]
    rw [Store.read_write_ne s p r d (fun he => h (by rw [he]))]

theorem readVestingT_write_ne (s : Store) (p : String) (d : FileData) :
    ∀ oref, oref ≠ some p →
      readVestingT (Store.write s p d) oref = readVestingT s oref
  | none, _ => rfl
  | some r, h => by
    simp only [readVestingT]
    rw [Store.read_write_ne s p r d (fun he => h (by rw [he]))]

theorem readFrameworkT_write_ne (s : Store) (p : String) (d : FileData)
    (h : frameworkPath ≠ p) :
    readFrameworkT (Store.write s p d) = readFrameworkT s := by
  unfold readFrameworkT
  rw [Store.read_write_ne s p frameworkPath d h]

/-- C2: the completeness gate. For a store whose layout passes the earlier
gates (it loads, has no duplicate participants, and its root key is set):
if some name listed in `layout.participants` has no published bundle at
`participants/<name>/identity`, aggregation fails with
`MissingParticipant` naming such a listed absent participant and the
pipeline writes no output files; and publishing a bundle for a name not
listed in `layout.participants` (at a path distinct from the auxiliary
file references) leaves the aggregation result unchanged — extras are
ignored. -/
theorem c2_completeness_gate (s : Store) (doc : List (String × Field))
    (layout : LayoutDescriptor)
    (hread : Store.read s layoutPath = some (.kvDoc doc))
    (hload : loadLayout doc = .ok layout)
    (hdup : layout.participants.Nodup)
    (hroot : layout.root_key.isSome) :
    ((∃ name ∈ layout.participants, Store.read s (participantPath name) = none) →
      ∃ m ∈ layout.participants,
        aggregate s = .error (.MissingParticipant m) ∧
        Store.read s (participantPath m) = none ∧
        (runPipeline s).2 = []) ∧
    (∀ extra d, extra ∉ layout.participants →
      layout.balances_file_ref ≠ some (participantPath extra) →
      layout.vesting_file_ref ≠ some (participantPath extra) →
      aggregate (Store.write s (participantPath extra) d) = aggregate s) := by
  rcases Option.isSome_iff_exists.mp hroot with ⟨k, hk⟩
  have hf : firstDup layout.participants = none :=
    firstDup_eq_none_of_nodup layout.participants hdup
  constructor
  · intro hmiss
    rcases readRawBundlesT_missing s layout.participants hmiss with ⟨m, hm, herr, hnone⟩
    have hagg : aggregate s = .error (.MissingParticipant m) := by
      unfold aggregate aggregateT
      rw [hread]
      simp only [hload, hf, hk]
      rcases hRB : readRawBundlesT s layout.participants with ⟨res, log⟩
      rw [hRB] at herr
      simp only at herr
      rw [herr]
    exact ⟨m, hm, hagg, hnone, runPipeline_error_no_files s _ hagg⟩
  · intro extra d hnot hbal hves
    have hnames : ∀ n ∈ layout.participants, participantPath n ≠ participantPath extra := by
      intro n hn he
      exact hnot (participantPath_injective n extra he ▸ hn)
    unfold aggregate aggregateT
    rw [Store.read_write_ne s (participantPath extra) layoutPath d
        (Ne.symm (participantPath_ne_layoutPath extra))]
    rw [hread]
    simp only [hload, hf, hk,
      readRawBundlesT_write_ne s (participantPath extra) d layout.participants hnames,
      readBalancesT_write_ne s (participantPath extra) d layout.balances_file_ref hbal,
      readVestingT_write_ne s (participantPath extra) d layout.vesting_file_ref hves,
      readFrameworkT_write_ne s (participantPath extra) d
        (Ne.symm (participantPath_ne_frameworkPath extra))]

theorem c2_witness :
    (∃ m ∈ scenarioLayoutB.participants,
      aggregate scenarioStoreB = .error (.MissingParticipant m) ∧
      Store.read scenarioStoreB (participantPath m) = none ∧
      (runPipeline scenarioStoreB).2 = []) ∧
    aggregate (Store.write scenarioStore (participantPath "user-9") (.bin [9])) =
      aggregate scenarioStore := by
  constructor
  · exact (c2_completeness_gate scenarioStoreB (serializeLayout scenarioLayoutB)
      scenarioLayoutB rfl rfl (by decide) (by decide)).1
      ⟨"user-2", by decide, by decide⟩
  · exact (c2_completeness_gate scenarioStore (serializeLayout scenarioLayout)
      scenarioLayout rfl rfl (by decide) (by decide)).2
      "user-9" (.bin [9]) (by decide) (by decide) (by decide)

end Genesis
